import Mathlib

/-!
Shallow embedding of the per-call session orchestrator of the
SalesforceAgentForce repository: the WebSocket media-stream handler and
`handleAgentConversation` from `server.js`, and the sequence-tracking
`SalesforceService` variant (the `sessionSequences` map with
`createSession`, `sendMessage`, `endSession`).  Effectful collaborators
(OAuth token fetch, backend HTTP posts, TTS chunk stream) are passed in
as explicit outcome values; a JavaScript exception propagating out of a
function is modelled by `Except.error`.
-/

namespace AgentForce

/-- The `sessionSequences` field: a JS `Map` from session id to the next
sequence number, modelled as an association list in which `set` replaces
any existing entry for the key. -/
abbrev SeqMap := List (String × Nat)

/-- `sessionSequences.get(sessionId)`. -/
def mapGet (m : SeqMap) (k : String) : Option Nat :=
  (m.find? (fun p => p.1 == k)).map (fun p => p.2)

/-- `sessionSequences.set(sessionId, v)`: replaces any existing entry. -/
def mapSet (m : SeqMap) (k : String) (v : Nat) : SeqMap :=
  (k, v) :: m.filter (fun p => !(p.1 == k))

/-- `sessionSequences.delete(sessionId)`. -/
def mapDelete (m : SeqMap) (k : String) : SeqMap :=
  m.filter (fun p => !(p.1 == k))

/-- Reply extraction in `sendMessage` (salesforce-service.js:116-121,
part_000:337-342): `const messages = response.data.messages || []`, then
`messages.length > 0 ? messages[messages.length - 1].text : fallback`.
A backend message is modelled by its `text`; `none` models an absent
`messages` field. -/
def parseAgentReply (messages : Option (List String)) : String :=
  let ms := messages.getD []
  match ms.getLast? with
  | some t => t
  | none => "I didn\u0027t understand that."

/-- Modelled from the spec, for comparison only (the source never joins
parts): reply parts "concatenated in order, separated by a single space,
into one spoken reply". -/
def specJoinReply (parts : List String) : String :=
  String.intercalate " " parts

/-- The outcome of the effectful steps inside one `sendMessage` call:
the `getAccessToken` call sits before the `try` block, so its failure
propagates out of `sendMessage`; the `axios.post` sits inside the `try`,
so its failure is caught there. -/
inductive SendEnv where
  | tokenFail
  | postFail
  | postOk (messages : Option (List String))
deriving DecidableEq, Repr

/-- One HTTP message-post to the agent backend as built in `sendMessage`
(part_000:319-335): it carries the issued `sequenceId` and the utterance
text. -/
structure PostRequest where
  sequenceId : Nat
  text : String
deriving DecidableEq, Repr

/-- part_000:308-351 `SalesforceService.sendMessage`.  Returns the
updated `sessionSequences` map, the list of posts actually sent to the
backend (at most one; none when the token fetch throws first), and
either the reply string (`Except.ok`; the caught post error turns into
the fixed apology) or the propagated token error (`Except.error`).
The sequence number is read with default 1 and bumped before the post,
so a failing post still consumes its number. -/
def sendMessage (st : SeqMap) (sessionId userMessage : String)
    (env : SendEnv) : SeqMap × List PostRequest × Except Unit String :=
  match env with
  | SendEnv.tokenFail => (st, [], Except.error ())
  | SendEnv.postFail =>
      let sequenceId := (mapGet st sessionId).getD 1
      (mapSet st sessionId (sequenceId + 1),
        [PostRequest.mk sequenceId userMessage],
        Except.ok "Sorry, I\u0027m having trouble connecting right now.")
  | SendEnv.postOk messages =>
      let sequenceId := (mapGet st sessionId).getD 1
      (mapSet st sessionId (sequenceId + 1),
        [PostRequest.mk sequenceId userMessage],
        Except.ok (parseAgentReply messages))

/-- part_000:234-289 `createSession`, sequence-relevant effects: on
success the backend returns the session id and the service initialises
the sequence entry of that session to 1; on failure the error propagates
and the map is untouched. -/
def createSession (st : SeqMap) (sessionId : String) (ok : Bool) :
    SeqMap × Option String :=
  if ok then (mapSet st sessionId 1, some sessionId) else (st, none)

/-- part_000:357-377 `endSession`: on a successful DELETE the sequence
entry of the session is removed from `sessionSequences`; a failure is
caught and logged and the entry is kept. -/
def endSession (st : SeqMap) (sessionId : String) (ok : Bool) : SeqMap :=
  if ok then mapDelete st sessionId else st

/-- A sequence of `sendMessage` calls for one session, threading the
service state; yields the final state and the sequence numbers issued on
the wire, in order. -/
def runSends (sessionId userMessage : String) :
    SeqMap → List SendEnv → SeqMap × List Nat
  | st, [] => (st, [])
  | st, e :: es =>
      let out := sendMessage st sessionId userMessage e
      let next := runSends sessionId userMessage out.1 es
      (next.1, out.2.1.map (fun r => r.sequenceId) ++ next.2)

/-- server.js:166-167: the fallback reply used when no Salesforce
session handle is available ("Mock Agent"). -/
def mockReply (userMessage : String) : String :=
  "I am a mock agent. Salesforce is currently offline, but I received your message: "
    ++ userMessage

/-- server.js:100: the session handle is read exactly once, at the time
the final transcript is processed (`salesforceSession?.sessionId`).
`handleAt t` gives the availability of the handle after `t` one-second
waits; the code only ever looks at `handleAt 0`. -/
def readHandleOnce (handleAt : Nat → Option String) : Option String :=
  handleAt 0

/-- Modelled from the spec, for comparison only (no such loop exists in
src): "polls up to a bounded number of attempts (5) at a fixed interval
(1 second) waiting for the handle to become ready", returning the first
handle observed within the bound. -/
def specPollHandle (handleAt : Nat → Option String) : Option String :=
  (List.range 5).findSome? handleAt

/-- server.js:162-176 `handleAgentConversation`, reply computation: with
no session handle the mock fallback is returned at once and no backend
call is made; otherwise one `sendMessage` is performed and an error it
throws is caught into a generic apology.  The function is total: it
always yields a reply string and never propagates an error. -/
def handleAgentConversation (userMessage : String)
    (sessionId : Option String) (st : SeqMap) (env : SendEnv) :
    SeqMap × String :=
  match sessionId with
  | none => (st, mockReply userMessage)
  | some sid =>
      let out := sendMessage st sid userMessage env
      match out.2.2 with
      | Except.ok reply => (out.1, reply)
      | Except.error _ =>
          (out.1, "I\u0027m having trouble connecting to Salesforce right now.")

/-- One chunk of the TTS audio stream: either bytes delivered (the
base64 payload) or a mid-stream synthesis/delivery failure (the
`for await` iteration throws). -/
inductive ChunkResult where
  | ok (payload : String)
  | err
deriving DecidableEq, Repr

/-- An outbound Twilio media event as built at server.js:199-205. -/
structure MediaEvent where
  event : String
  streamSid : String
  payload : String
deriving DecidableEq, Repr

/-- server.js:198-206: the `for await` loop wraps each chunk in a media
event tagged with the stream id and sends it; a failing chunk throws,
ending the loop, and the error is caught at server.js:209-211, so no
later chunk of this reply is sent. -/
def streamChunks (sid : String) : List ChunkResult → List MediaEvent
  | [] => []
  | ChunkResult.ok b :: rest =>
      MediaEvent.mk "media" sid b :: streamChunks sid rest
  | ChunkResult.err :: _ => []

/-- Per-connection state of the WebSocket handler (server.js:73-157):
`ws.streamSid` (set by the start event), whether Deepgram and a
Salesforce session are configured, the audio payloads forwarded to
Deepgram, the two teardown flags, and whether the handler closed the
socket. -/
structure WsState where
  streamSid : Option String
  hasDeepgram : Bool
  hasSession : Bool
  dgAudio : List String
  dgFinished : Bool
  sfEnded : Bool
  wsClosed : Bool
deriving DecidableEq, Repr

/-- server.js:181-212, the speaking half of `handleAgentConversation`:
guarded by `if (agentResponse && ws.streamSid)`, so it is a no-op unless
the reply is non-empty (truthy) and a stream id was assigned; otherwise
the TTS chunks are streamed out.  The connection state is returned
unchanged in every case: the loop only emits events and the catch block
only logs. -/
def speak (st : WsState) (replyText : String) (chunks : List ChunkResult) :
    WsState × List MediaEvent :=
  match st.streamSid with
  | some sid =>
      if replyText ≠ "" then (st, streamChunks sid chunks) else (st, [])
  | none => (st, [])

/-- An inbound Twilio control/media event: the `event` discriminator of
the parsed JSON together with the fields the handler reads. -/
inductive TwilioEvent where
  | connected
  | start (streamSid : String)
  | media (payload : String)
  | stop
  | other
deriving DecidableEq, Repr

/-- A raw inbound WebSocket message: valid JSON carrying an event, or
text that `JSON.parse` rejects. -/
inductive InboundMessage where
  | valid (e : TwilioEvent)
  | malformed
deriving DecidableEq, Repr

/-- server.js:122-145, the `switch` over a parsed message: `start`
records the stream id, `media` forwards the payload to Deepgram when
configured, `stop` finishes Deepgram and ends the Salesforce session
when present; `connected` and unknown events do nothing.  No case closes
the socket. -/
def handleEvent (st : WsState) : TwilioEvent → WsState
  | TwilioEvent.connected => st
  | TwilioEvent.start sid => { st with streamSid := some sid }
  | TwilioEvent.media p =>
      if st.hasDeepgram then { st with dgAudio := st.dgAudio ++ [p] } else st
  | TwilioEvent.stop =>
      let st1 := if st.hasDeepgram then { st with dgFinished := true } else st
      if st1.hasSession then { st1 with sfEnded := true } else st1
  | TwilioEvent.other => st

/-- server.js:119-146 `ws.on(message)`: the first statement is an
unguarded `JSON.parse(message)`, so a malformed message makes the
handler raise the parse error (`Except.error`); a well-formed message is
dispatched to the switch. -/
def onMessage (st : WsState) : InboundMessage → Except String WsState
  | InboundMessage.malformed =>
      Except.error "SyntaxError: Unexpected token in JSON"
  | InboundMessage.valid e => Except.ok (handleEvent st e)

/-- JS `String.prototype.trim`, modelled on the character list: strips
leading and trailing whitespace (kernel-reducible, unlike the
well-founded `String.trim`). -/
def jsTrim (s : String) : String :=
  String.mk
    (((s.data.dropWhile Char.isWhitespace).reverse.dropWhile
        Char.isWhitespace).reverse)

/-- server.js:95-102, the direct transcript handler: a turn is initiated
iff the transcript is truthy (non-empty) and the fragment is final; the
utterance handed on is the untrimmed transcript. -/
def transcriptTriggersTurn (transcript : String) (isFinal : Bool) : Bool :=
  (transcript != "") && isFinal

/-- server.js:304-321, the buffered transcript handler: when the
transcript is truthy and has non-empty trimmed text it is appended to
the buffer, and on a final fragment the trimmed buffer is dispatched if
non-empty, the buffer being reset first.  Returns the new
`transcriptBuffer` and the dispatched utterance, if any. -/
def transcriptStep (buffer transcript : String) (isFinal : Bool) :
    String × Option String :=
  if transcript ≠ "" ∧ 0 < (jsTrim transcript).length then
    let buf := buffer ++ transcript ++ " "
    if isFinal then
      let userMessage := jsTrim buf
      if userMessage ≠ "" then ("", some userMessage) else ("", none)
    else (buf, none)
  else (buffer, none)

/-! Helper lemmas about the `sessionSequences` association-list map. -/

theorem mapGet_mapSet_self (m : SeqMap) (k : String) (v : Nat) :
    mapGet (mapSet m k v) k = some v := by
  simp [mapGet, mapSet]

theorem mapGet_mapDelete_self (m : SeqMap) (k : String) :
    mapGet (mapDelete m k) k = none := by
  induction m with
  | nil => rfl
  | cons p m ih =>
      by_cases h : (p.1 == k) = true
      · simpa [mapDelete, List.filter_cons, h] using ih
      · rw [Bool.not_eq_true] at h
        have hm := ih
        simp only [mapDelete, mapGet, List.filter_cons, List.find?_cons, h,
          Bool.not_false, if_pos] at hm ⊢
        exact hm

/-- The sequence behaviour of one `sendMessage` that reaches the post:
the wire carries the current counter value and the counter is bumped by
one, whether the post succeeds or fails. -/
theorem sendMessage_seq (st : SeqMap) (sid msg : String) (e : SendEnv)
    (he : e ≠ SendEnv.tokenFail) (k : Nat) (hk : mapGet st sid = some k) :
    (sendMessage st sid msg e).2.1.map (fun r => r.sequenceId) = [k] ∧
    mapGet (sendMessage st sid msg e).1 sid = some (k + 1) := by
  cases e with
  | tokenFail => exact absurd rfl he
  | postFail => constructor <;> simp [sendMessage, hk, mapGet_mapSet_self]
  | postOk ms => constructor <;> simp [sendMessage, hk, mapGet_mapSet_self]

/-- Trace of a run of sends: starting from counter `k`, the issued
sequence numbers are `k, k+1, …` and the final counter is `k` plus the
number of sends. -/
theorem runSends_trace (sid msg : String) (es : List SendEnv)
    (hes : ∀ e ∈ es, e ≠ SendEnv.tokenFail) :
    ∀ (st : SeqMap) (k : Nat), mapGet st sid = some k →
      (runSends sid msg st es).2 = List.range' k es.length ∧
      mapGet (runSends sid msg st es).1 sid = some (k + es.length) := by
  induction es with
  | nil => intro st k hk; simpa [runSends] using hk
  | cons e es ih =>
      intro st k hk
      have he : e ≠ SendEnv.tokenFail := hes e (by simp)
      have hes' : ∀ x ∈ es, x ≠ SendEnv.tokenFail := fun x hx =>
        hes x (by simp [hx])
      obtain ⟨hseq, hnext⟩ := sendMessage_seq st sid msg e he k hk
      obtain ⟨ht, hf⟩ := ih hes' (sendMessage st sid msg e).1 (k + 1) hnext
      constructor
      · simp only [runSends, hseq, ht, List.length_cons, List.range'_succ,
          List.singleton_append]
      · simp only [runSends, hf, List.length_cons]
        congr 1
        omega

/-! Claim theorems. -/

/-- C1 (counterexample): with a handle that is unavailable at the
moment the utterance is processed but ready from the first one-second
poll on, `handleAgentConversation` still returns the mock fallback: it
reads the handle exactly once (server.js:100) and never polls, so the
claimed 5-attempt 1-second polling before falling back does not happen
— the spec-modelled poller would have found the handle on attempt 1 and
obtained the backend reply. -/
theorem C1_no_polling_counterexample :
    readHandleOnce (fun t => if t = 0 then none else some "SID") = none ∧
    specPollHandle (fun t => if t = 0 then none else some "SID")
      = some "SID" ∧
    (handleAgentConversation "hello"
        (readHandleOnce (fun t => if t = 0 then none else some "SID"))
        [] (SendEnv.postOk (some ["ready reply"]))).2
      = mockReply "hello" := by
  exact ⟨rfl, rfl, rfl⟩

/-- C1 (amended): when no conversational-agent session handle is
available at the moment the utterance is processed, the turn manager
performs no polling — it reads the handle once — and immediately
returns the deterministic fallback reply, which is the fixed mock text
followed by the original utterance; the state is untouched and, being a
total function into `String`, it never throws. -/
theorem C1_immediate_fallback (userMessage : String) (st : SeqMap)
    (env : SendEnv) (handleAt : Nat → Option String)
    (h : handleAt 0 = none) :
    handleAgentConversation userMessage (readHandleOnce handleAt) st env
      = (st, mockReply userMessage) ∧
    mockReply userMessage
      = "I am a mock agent. Salesforce is currently offline, but I received your message: "
          ++ userMessage := by
  constructor
  · simp [readHandleOnce, h, handleAgentConversation]
  · rfl

theorem C1_immediate_fallback_witness :
    ((fun _ : Nat => (none : Option String)) 0 = none) ∧
    (handleAgentConversation "where is my order"
        (readHandleOnce (fun _ => none)) [] SendEnv.postFail
      = ([], mockReply "where is my order") ∧
    mockReply "where is my order"
      = "I am a mock agent. Salesforce is currently offline, but I received your message: "
          ++ "where is my order") :=
  ⟨rfl, C1_immediate_fallback "where is my order" [] SendEnv.postFail
    (fun _ => none) rfl⟩

/-- C2 (counterexample): the code takes the LAST element of the
messages array rather than joining the parts: for the backend reply
parts "Your order ships" and "tomorrow." the spoken reply is
"tomorrow.", not the claimed space-separated concatenation produced by
the spec-modelled `specJoinReply`. -/
theorem C2_join_counterexample :
    parseAgentReply (some ["Your order ships", "tomorrow."])
      = "tomorrow." ∧
    specJoinReply ["Your order ships", "tomorrow."]
      = "Your order ships tomorrow." ∧
    parseAgentReply (some ["Your order ships", "tomorrow."])
      ≠ specJoinReply ["Your order ships", "tomorrow."] := by
  refine ⟨rfl, rfl, ?_⟩
  decide

/-- C2 (amended): for a backend response with a non-empty ordered list
of reply parts, the spoken reply returned equals the LAST part in
delivery order (`messages[messages.length - 1].text`); in particular
["Your order ships", "tomorrow."] yields "tomorrow.". -/
theorem C2_reply_is_last_part (parts : List String) (t : String)
    (h : parts.getLast? = some t) :
    parseAgentReply (some parts) = t := by
  simp [parseAgentReply, h]

theorem C2_reply_is_last_part_witness :
    (["Your order ships", "tomorrow."].getLast? = some "tomorrow.") ∧
    parseAgentReply (some ["Your order ships", "tomorrow."])
      = "tomorrow." :=
  ⟨rfl, C2_reply_is_last_part ["Your order ships", "tomorrow."]
    "tomorrow." rfl⟩

/-- C9: whenever the backend response carries an empty or absent
messages array, `sendMessage` reply extraction returns exactly the
fixed string rather than an error or an empty string. -/
theorem C9_empty_messages_fallback (messages : Option (List String))
    (h : messages.getD [] = []) :
    parseAgentReply messages = "I didn\u0027t understand that." := by
  simp [parseAgentReply, h]

theorem C9_empty_messages_fallback_witness :
    ((none : Option (List String)).getD [] = []) ∧
    parseAgentReply none = "I didn\u0027t understand that." :=
  ⟨rfl, C9_empty_messages_fallback none rfl⟩

/-- C3 (counterexample): at a concrete live session state, an inbound
message that is not valid JSON makes the message handler raise the
parse error out of the handler (`Except.error`), rather than being
logged and ignored: `JSON.parse` at server.js:120 is unguarded. -/
theorem C3_malformed_raises_counterexample :
    onMessage (WsState.mk none true true [] false false false)
        InboundMessage.malformed
      = Except.error "SyntaxError: Unexpected token in JSON" :=
  rfl

/-- C3 (amended): for every session state, a malformed inbound message
raises the JSON parse error out of the message handler (the parse is
unguarded, so it is neither logged nor ignored there), while every
well-formed message is handled without raising and the handler itself
never closes the socket — the handler code terminates no session. -/
theorem C3_malformed_message_raises (st : WsState) :
    onMessage st InboundMessage.malformed
      = Except.error "SyntaxError: Unexpected token in JSON" ∧
    ∀ e : TwilioEvent,
      onMessage st (InboundMessage.valid e)
          = Except.ok (handleEvent st e) ∧
        (handleEvent st e).wsClosed = st.wsClosed := by
  refine ⟨rfl, fun e => ⟨rfl, ?_⟩⟩
  cases e <;> simp only [handleEvent] <;> split <;> (try split) <;> rfl

/-- C4 (counterexample): the whitespace-only transcript " " is empty
after trimming, yet the direct transcript handler (server.js:95-102)
guards only on truthiness, so a final fragment with that text does
initiate a turn, and the turn requests an agent reply: `sendMessage`
posts the utterance " " tagged with sequence number 1. -/
theorem C4_whitespace_triggers_counterexample :
    jsTrim " " = "" ∧
    transcriptTriggersTurn " " true = true ∧
    (sendMessage [("S", 1)] "S" " " (SendEnv.postOk (some ["ok"]))).2.1
      = [PostRequest.mk 1 " "] := by
  refine ⟨by decide, rfl, ?_⟩
  simp [sendMessage, mapGet]

/-- C4 (amended): in the buffered transcript handler
(server.js:304-321) a final fragment whose trimmed text is empty never
dispatches an utterance; in the direct handler (server.js:95-102) the
guard is only truthiness, so a final fragment initiates a turn iff its
raw text is non-empty — hence a whitespace-only final fragment does
initiate a turn there. -/
theorem C4_empty_trim_no_dispatch (buffer transcript : String)
    (h : jsTrim transcript = "") :
    (transcriptStep buffer transcript true).2 = none ∧
    transcriptTriggersTurn transcript true = (transcript != "") := by
  constructor
  · simp [transcriptStep, h]
  · simp [transcriptTriggersTurn]

theorem C4_empty_trim_no_dispatch_witness :
    (jsTrim " " = "") ∧
    ((transcriptStep "previous words " " " true).2 = none ∧
      transcriptTriggersTurn " " true = (" " != "")) :=
  ⟨by decide, C4_empty_trim_no_dispatch "previous words " " " (by decide)⟩

/-- C5: within one session (created and not yet ended), the sequence
numbers issued on the wire by successive `sendMessage` calls are
exactly 1, 2, …, n: strictly increasing, never reused, and the counter
is advanced exactly once per send attempt whether the post succeeds or
fails (it is bumped before the post and a failed post is not retried),
ending at n + 1. -/
theorem C5_sequence_strictly_increasing (sessionId userMessage : String)
    (st0 : SeqMap) (es : List SendEnv)
    (hes : ∀ e ∈ es, e ≠ SendEnv.tokenFail) :
    (runSends sessionId userMessage
        (createSession st0 sessionId true).1 es).2
      = List.range' 1 es.length ∧
    (runSends sessionId userMessage
        (createSession st0 sessionId true).1 es).2.Pairwise (· < ·) ∧
    (runSends sessionId userMessage
        (createSession st0 sessionId true).1 es).2.Nodup ∧
    mapGet (runSends sessionId userMessage
        (createSession st0 sessionId true).1 es).1 sessionId
      = some (1 + es.length) := by
  have h1 : mapGet (createSession st0 sessionId true).1 sessionId
      = some 1 := by
    simp [createSession, mapGet_mapSet_self]
  obtain ⟨ht, hf⟩ :=
    runSends_trace sessionId userMessage es hes
      (createSession st0 sessionId true).1 1 h1
  refine ⟨ht, ?_, ?_, hf⟩
  · rw [ht]; exact List.pairwise_lt_range' 1 es.length
  · rw [ht]; exact List.nodup_range' 1 es.length

theorem C5_sequence_strictly_increasing_witness :
    (∀ e ∈ [SendEnv.postOk (some ["first reply"]), SendEnv.postFail,
        SendEnv.postOk none], e ≠ SendEnv.tokenFail) ∧
    ((runSends "S" "hi" (createSession [] "S" true).1
        [SendEnv.postOk (some ["first reply"]), SendEnv.postFail,
          SendEnv.postOk none]).2
      = List.range' 1 3 ∧
    (runSends "S" "hi" (createSession [] "S" true).1
        [SendEnv.postOk (some ["first reply"]), SendEnv.postFail,
          SendEnv.postOk none]).2.Pairwise (· < ·) ∧
    (runSends "S" "hi" (createSession [] "S" true).1
        [SendEnv.postOk (some ["first reply"]), SendEnv.postFail,
          SendEnv.postOk none]).2.Nodup ∧
    mapGet (runSends "S" "hi" (createSession [] "S" true).1
        [SendEnv.postOk (some ["first reply"]), SendEnv.postFail,
          SendEnv.postOk none]).1 "S"
      = some (1 + 3)) :=
  ⟨by decide,
    C5_sequence_strictly_increasing "S" "hi" []
      [SendEnv.postOk (some ["first reply"]), SendEnv.postFail,
        SendEnv.postOk none] (by decide)⟩

/-- C6: on a transport/backend error the turn manager makes exactly one
post (no retry) and returns the generic apology from the `sendMessage`
catch block; when even the token fetch throws, `handleAgentConversation`
catches it and returns its own generic apology; and for every outcome
at most one post is made.  Both functions are total, so processing an
utterance always produces a reply string and never raises past the
orchestrator. -/
theorem C6_error_apology_no_retry (userMessage sid : String)
    (st : SeqMap) :
    (handleAgentConversation userMessage (some sid) st
        SendEnv.postFail).2
      = "Sorry, I\u0027m having trouble connecting right now." ∧
    (sendMessage st sid userMessage SendEnv.postFail).2.1.length = 1 ∧
    (handleAgentConversation userMessage (some sid) st
        SendEnv.tokenFail).2
      = "I\u0027m having trouble connecting to Salesforce right now." ∧
    ∀ env : SendEnv,
      (sendMessage st sid userMessage env).2.1.length ≤ 1 := by
  refine ⟨rfl, rfl, rfl, ?_⟩
  intro env
  cases env <;> simp [sendMessage]

/-- Streaming a block of successful chunks emits one tagged media event
per chunk, in order, and continues with the remaining chunks. -/
theorem streamChunks_ok_append (sid : String) (good : List String)
    (rest : List ChunkResult) :
    streamChunks sid (good.map ChunkResult.ok ++ rest)
      = good.map (fun b => MediaEvent.mk "media" sid b)
          ++ streamChunks sid rest := by
  induction good with
  | nil => rfl
  | cons b good ih => simp [streamChunks, ih]

/-- C7: for a non-empty reply spoken to a destination with an assigned
stream identifier, every chunk up to the first failure is delivered as
a media event tagged with that stream identifier, in production order;
a failure at a later chunk stops delivery of all subsequent chunks of
that reply, and in both the clean and the failing run the connection
state is returned unchanged — the error is caught, the session is not
terminated. -/
theorem C7_ordered_tagged_delivery (st : WsState) (sid replyText : String)
    (good : List String) (rest : List ChunkResult)
    (hsid : st.streamSid = some sid) (hr : replyText ≠ "") :
    speak st replyText (good.map ChunkResult.ok ++ ChunkResult.err :: rest)
      = (st, good.map (fun b => MediaEvent.mk "media" sid b)) ∧
    speak st replyText (good.map ChunkResult.ok)
      = (st, good.map (fun b => MediaEvent.mk "media" sid b)) ∧
    ∀ ev ∈ (speak st replyText
        (good.map ChunkResult.ok ++ ChunkResult.err :: rest)).2,
      ev.event = "media" ∧ ev.streamSid = sid := by
  have h1 : speak st replyText
      (good.map ChunkResult.ok ++ ChunkResult.err :: rest)
      = (st, good.map (fun b => MediaEvent.mk "media" sid b)) := by
    simp [speak, hsid, hr, streamChunks_ok_append, streamChunks]
  have h2 : speak st replyText (good.map ChunkResult.ok)
      = (st, good.map (fun b => MediaEvent.mk "media" sid b)) := by
    have := streamChunks_ok_append sid good []
    simp only [List.append_nil] at this
    simp [speak, hsid, hr, this, streamChunks]
  refine ⟨h1, h2, ?_⟩
  intro ev hev
  rw [h1] at hev
  simp only [List.mem_map] at hev
  obtain ⟨b, _, rfl⟩ := hev
  exact ⟨rfl, rfl⟩

theorem C7_ordered_tagged_delivery_witness :
    ((WsState.mk (some "MZ1") true true [] false false false).streamSid
        = some "MZ1") ∧
    ("hi" ≠ "") ∧
    speak (WsState.mk (some "MZ1") true true [] false false false) "hi"
        (["aa", "bb"].map ChunkResult.ok
          ++ ChunkResult.err :: [ChunkResult.ok "cc"])
      = (WsState.mk (some "MZ1") true true [] false false false,
          ["aa", "bb"].map (fun b => MediaEvent.mk "media" "MZ1" b)) :=
  ⟨rfl, by decide,
    (C7_ordered_tagged_delivery
      (WsState.mk (some "MZ1") true true [] false false false) "MZ1" "hi"
      ["aa", "bb"] [ChunkResult.ok "cc"] rfl (by decide)).1⟩

/-- C8: a `speak` call with an empty reply text or with a destination
lacking an assigned stream identifier produces zero outbound media
events and leaves the connection state unchanged (the guard
`if (agentResponse && ws.streamSid)` skips the whole block). -/
theorem C8_speak_noop (st : WsState) (replyText : String)
    (chunks : List ChunkResult)
    (h : replyText = "" ∨ st.streamSid = none) :
    speak st replyText chunks = (st, []) := by
  rcases h with h | h
  · cases hs : st.streamSid <;> simp [speak, hs, h]
  · simp [speak, h]

theorem C8_speak_noop_witness :
    ("" = "" ∨ (WsState.mk (some "MZ1") true true [] false false
        false).streamSid = none) ∧
    speak (WsState.mk (some "MZ1") true true [] false false false) ""
        [ChunkResult.ok "aa"]
      = (WsState.mk (some "MZ1") true true [] false false false, []) :=
  ⟨Or.inl rfl,
    C8_speak_noop (WsState.mk (some "MZ1") true true [] false false false)
      "" [ChunkResult.ok "aa"] (Or.inl rfl)⟩

/-- C10: a successful `endSession` deletes the sequence entry of the
session from `sessionSequences`, so a later `sendMessage` addressed to
the same session identifier reads the default and issues sequence
number 1 again — numbering restarts and sequence numbers can repeat
across an end/re-send boundary. -/
theorem C10_end_session_restarts_sequence (st : SeqMap)
    (sid msg : String) (env : SendEnv) (he : env ≠ SendEnv.tokenFail) :
    mapGet (endSession st sid true) sid = none ∧
    (sendMessage (endSession st sid true) sid msg env).2.1.map
        (fun r => r.sequenceId)
      = [1] := by
  have hnone : mapGet (endSession st sid true) sid = none := by
    simpa [endSession] using mapGet_mapDelete_self st sid
  refine ⟨hnone, ?_⟩
  cases env with
  | tokenFail => exact absurd rfl he
  | postFail => simp [sendMessage, hnone]
  | postOk ms => simp [sendMessage, hnone]

theorem C10_end_session_restarts_sequence_witness :
    (SendEnv.postOk (some ["again"]) ≠ SendEnv.tokenFail) ∧
    (mapGet (endSession [("S", 2)] "S" true) "S" = none ∧
      (sendMessage (endSession [("S", 2)] "S" true) "S" "hi"
          (SendEnv.postOk (some ["again"]))).2.1.map
          (fun r => r.sequenceId)
        = [1]) :=
  ⟨by decide,
    C10_end_session_restarts_sequence [("S", 2)] "S" "hi"
      (SendEnv.postOk (some ["again"])) (by decide)⟩

end AgentForce
